import Mathlib

/-!
Verification of the Hades GBA emulator core (CPU step, barrel shifter,
pipeline, reset) and its DMA controller, through a shallow embedding of the
C sources in Lean.

Machine integers are modelled as `Nat` with explicit reductions `% 2^32`
wherever the C code relies on `uint32_t` wrap-around.  Code paths that call
the emulator's `panic`/`unimplemented` helpers are modelled with an error
outcome carrying the panic message.
-/

set_option maxRecDepth 4000

/-- Bit `n` of `v`, as a boolean.  Models `bitfield_get` from `hades.h`
(the header is not part of the analysed sources; modelled from the spec's
bit-field conventions: bit `n` of the value). -/
def bitfield_get (v n : Nat) : Bool :=
  decide ((v >>> n) % 2 = 1)

/-- Modelled from the spec: `bitfield_get_range` of `hades.h` is not part of
the analysed sources.  It extracts the bits of `v` from `start` (inclusive)
to `stop` (exclusive), i.e. `(v >> start) & ((1 << (stop - start)) - 1)`.
When `stop ≤ start` the range is empty (the C expression is undefined in
that case; the spec flags the only call site that reaches it as a decoding
bug) and the result is `0`. -/
def bitfield_get_range (v start stop : Nat) : Nat :=
  (v >>> start) % 2 ^ (stop - start)

/-- Arithmetic (sign-propagating) right shift of a 32-bit two's-complement
value, as performed by `(int32_t)value >> n` in the C sources: for a value
with bit 31 set, the vacated high bits are filled with ones. -/
def asr32 (v n : Nat) : Nat :=
  if v < 2 ^ 31 then v >>> n
  else (v >>> n) + (2 ^ 32 - 2 ^ (32 - n))

/-- The CPSR bit-fields accessed by the analysed sources (`struct core`
lives in the missing `core.h`; the fields and their meaning are those the
spec gives for a status word: condition flags N/Z/C/V, the T bit and the
5-bit mode field). `cpsr.raw = 0` corresponds to all fields zero. -/
structure Cpsr where
  mode : Nat
  thumb : Bool
  negative : Bool
  zero : Bool
  carry : Bool
  overflow : Bool
deriving Repr, DecidableEq

/-- The System mode value of the 5-bit CPSR mode field (`MODE_SYSTEM` in the
missing `core.h`; the ARM7TDMI encoding the spec's reference cites). -/
def MODE_SYSTEM : Nat := 0b11111

/-- The CPU core state: the 16 visible registers (r15 is the PC), the CPSR,
the prefetch latch and the endianness flag of `struct core`.  The bus
accessors `core_bus_read32`/`core_bus_read16` live outside the analysed
sources; per the spec the core accesses memory through read callbacks, so
they are carried as abstract functions from address to value. -/
structure Core where
  registers : Fin 16 → Nat
  cpsr : Cpsr
  prefetch : Nat
  bigEndian : Bool
  busRead32 : Nat → Nat
  busRead16 : Nat → Nat

/-- r15 is the program counter. -/
def Core.r15 (c : Core) : Nat := c.registers 15

/-- Write r15 (the PC). -/
def Core.setR15 (c : Core) (v : Nat) : Core :=
  { c with registers := Function.update c.registers 15 v }

/-- Write the CPSR carry flag. -/
def Core.setCarry (c : Core) (b : Bool) : Core :=
  { c with cpsr := { c.cpsr with carry := b } }

/-- The condition test of `core_step_arm`: maps the 4-bit condition code of
an instruction to a predicate over the CPSR flags.  The `COND_*` values
(`COND_EQ = 0` through `COND_AL = 14`, from the missing `core.h`) follow the
ARM condition encoding of the spec's 16-value table.  The `default` branch
of the C switch calls `panic`, modelled by `none`. -/
def condEval (cpsr : Cpsr) (cond : Nat) : Option Bool :=
  match cond with
  | 0 => some cpsr.zero
  | 1 => some (!cpsr.zero)
  | 2 => some cpsr.carry
  | 3 => some (!cpsr.carry)
  | 4 => some cpsr.negative
  | 5 => some (!cpsr.negative)
  | 6 => some cpsr.overflow
  | 7 => some (!cpsr.overflow)
  | 8 => some (cpsr.carry && !cpsr.zero)
  | 9 => some (!cpsr.carry || cpsr.zero)
  | 10 => some (cpsr.negative == cpsr.overflow)
  | 11 => some (cpsr.negative != cpsr.overflow)
  | 12 => some (!cpsr.zero && (cpsr.negative == cpsr.overflow))
  | 13 => some (cpsr.zero || (cpsr.negative != cpsr.overflow))
  | 14 => some true
  | _ => none

/-- The instruction classes `core_step_arm` dispatches to.  The executor
bodies (`core_arm_*`) are outside the analysed sources, so a step that
reaches an executor is modelled as an `exec` outcome naming the class, the
instruction word and the state handed to the executor. -/
inductive ArmClass where
  | branchxchg
  | mrs
  | msr
  | msrf
  | data_processing
  | mul
  | sdt
  | branch
deriving Repr, DecidableEq

/-- The decode dispatch of `core_step_arm` (the `switch` over bits 25-27 and
its inner tests), transcribed verbatim — including the C bug on the MSR and
MSRF lines, where the third argument of `bitfield_get_range` is the C
expression `25 == 0b10` (which evaluates to `0` inside the argument list)
and the call result is then used as a truth value.  `panic` branches are
modelled as errors carrying the panic message. -/
def core_decode_arm (op : Nat) : Except String ArmClass :=
  match bitfield_get_range op 25 28 with
  | 0 | 1 =>
    if bitfield_get_range op 4 28 = 0x12FFF1 then
      Except.ok ArmClass.branchxchg
    else if bitfield_get_range op 23 25 = 0b10 ∧ bitfield_get_range op 16 22 = 0b001111 then
      Except.ok ArmClass.mrs
    else if bitfield_get_range op 23 (if (25 : Nat) = 0b10 then 1 else 0) ≠ 0
            ∧ bitfield_get_range op 12 22 = 0b1010011111 then
      Except.ok ArmClass.msr
    else if bitfield_get_range op 23 (if (25 : Nat) = 0b10 then 1 else 0) ≠ 0
            ∧ bitfield_get_range op 12 22 = 0b1010001111 then
      Except.ok ArmClass.msrf
    else if bitfield_get op 4 = false ∨ bitfield_get op 7 = false then
      Except.ok ArmClass.data_processing
    else if bitfield_get_range op 22 24 = 0 then
      Except.ok ArmClass.mul
    else
      Except.error "Unknown instruction"
  | 2 | 3 =>
    if bitfield_get op 25 = true ∧ bitfield_get op 4 = true then
      Except.error "Undefined state"
    else
      Except.ok ArmClass.sdt
  | 5 => Except.ok ArmClass.branch
  | _ => Except.error "Unknown instruction"

/-- Outcome of one execution step: the instruction was condition-skipped,
was dispatched to an executor, or the step hit a `panic`/`unimplemented`
call. -/
inductive StepResult where
  | skipped (core : Core)
  | exec (cls : ArmClass) (op : Nat) (core : Core)
  | panic (msg : String)

/-- The fetch part of `core_step_arm`: refill the prefetch latch with the
word read at r15, then advance r15 by 4 (transcribing
`core->prefetch = core_bus_read32(core, core->r15); core->r15 += 4;`). -/
def core_fetch_advance (core : Core) : Core :=
  let core1 := { core with prefetch := core.busRead32 core.r15 }
  core1.setR15 ((core1.r15 + 4) % 2 ^ 32)

/-- `core_step_arm`: take the instruction word from the prefetch latch,
refill the latch from r15 and advance r15 by 4, test the condition code
(panicking on an unknown condition), skip the instruction if the condition
fails, and otherwise decode and dispatch it. -/
def core_step_arm (core0 : Core) : StepResult :=
  let op := core0.prefetch
  let core := core_fetch_advance core0
  match condEval core.cpsr (op >>> 28) with
  | none => StepResult.panic "Unknown cond"
  | some false => StepResult.skipped core
  | some true =>
    match core_decode_arm op with
    | Except.error msg => StepResult.panic msg
    | Except.ok cls => StepResult.exec cls op core

/-- `core_step_thumb`: the C body is a single `unimplemented` call. -/
def core_step_thumb (_core : Core) : StepResult :=
  StepResult.panic "Thumb mode isn't implemented (yet)."

/-- `core_step`: dispatch on the CPSR T bit. -/
def core_step (core : Core) : StepResult :=
  if core.cpsr.thumb then core_step_thumb core
  else core_step_arm core

/-- `core_reload_pipeline`: refill the prefetch latch from the current PC
and advance the PC by one instruction width (2 bytes in Thumb state, 4 in
ARM state).  The C sources call this after every change of PC. -/
def core_reload_pipeline (core : Core) : Core :=
  if core.cpsr.thumb then
    let core1 := { core with prefetch := core.busRead16 core.r15 }
    core1.setR15 ((core1.r15 + 2) % 2 ^ 32)
  else
    let core1 := { core with prefetch := core.busRead32 core.r15 }
    core1.setR15 ((core1.r15 + 4) % 2 ^ 32)

/-- `core_reset`: zero the 16 registers, set r15 to the cartridge entry
point `0x8000000`, clear the CPSR (`cpsr.raw = 0`) except for the mode field
which is set to System, clear `big_endian`, then reload the pipeline. -/
def core_reset (core : Core) : Core :=
  let core1 := { core with registers := fun _ => 0 }
  let core2 := core1.setR15 0x8000000
  let core3 := { core2 with
    cpsr := { mode := MODE_SYSTEM, thumb := false, negative := false,
              zero := false, carry := false, overflow := false },
    bigEndian := false }
  core_reload_pipeline core3

/-- The switch over the four shift types shared by both paths of
`core_compute_shift`, for an already-determined shift amount `bits`:
returns the shifted value and the carry-out.  Transcribed case by case from
the C `switch (type)`. -/
def core_shift_calc (core : Core) (ty bits value : Nat) : Nat × Bool :=
  match ty with
  | 0 =>
    -- Logical left; LSL#0 leaves the value untouched, carry is the old C flag.
    if bits = 0 then
      (value, core.cpsr.carry)
    else
      let v := (value <<< (bits - 1)) % 2 ^ 32
      ((v <<< 1) % 2 ^ 32, decide (v >>> 31 = 1))
  | 1 =>
    -- Logical right; LSR#0 encodes LSR#32.
    let bits1 := if bits = 0 then 32 else bits
    let v := value >>> (bits1 - 1)
    (v >>> 1, decide (v % 2 = 1))
  | 2 =>
    -- Arithmetic right; ASR#0 encodes ASR#32.
    let bits1 := if bits = 0 then 32 else bits
    let v := asr32 value (bits1 - 1)
    (asr32 v 1, decide (v % 2 = 1))
  | _ =>
    -- Rotate right; ROR#0 encodes RRX.
    if bits = 0 then
      ((value >>> 1) ||| ((if core.cpsr.carry then 1 else 0) <<< 31),
       decide (value % 2 = 1))
    else
      (((value >>> bits) ||| ((value <<< (32 - bits)) % 2 ^ 32)) % 2 ^ 32,
       decide ((value >>> (bits - 1)) % 2 = 1))

/-- `core_compute_shift`: computes the operand of an instruction that uses
an encoded shift.  Bit 0 of the encoding selects a register-specified
amount (taken from the low byte of rs) or an immediate amount (bits 3-7).
A register amount of 0 returns the value at once, leaving the carry alone;
a register amount of 32 or more reaches the C `unimplemented` call,
modelled as an error.  Otherwise the shift is performed and, when
`update_carry` is set, the carry-out is written to the CPSR. -/
def core_compute_shift (core : Core) (encoded_shift value : Nat)
    (update_carry : Bool) : Except String (Nat × Core) :=
  if bitfield_get encoded_shift 0 then
    let rs : Fin 16 := ⟨(encoded_shift >>> 4) % 16, Nat.mod_lt _ (by decide)⟩
    let bits := core.registers rs % 256
    if bits = 0 then
      Except.ok (value, core)
    else if 32 ≤ bits then
      Except.error "unsupported shifts of more than 32 bits"
    else
      let r := core_shift_calc core ((encoded_shift >>> 1) % 4) bits value
      Except.ok (r.1, if update_carry then core.setCarry r.2 else core)
  else
    let r := core_shift_calc core ((encoded_shift >>> 1) % 4)
               ((encoded_shift >>> 3) % 32) value
    Except.ok (r.1, if update_carry then core.setCarry r.2 else core)

/-- A DMA channel, after `struct dma_channel` of `memory.h`: the source,
destination and count latches and the fields of the packed control word
(`dst_ctl`, `src_ctl`, `repeat`, `type`, `gamepak_drq`, `timing`,
`irq_end`, `enable`).  The `repeat` field is named `rep` because `repeat`
is reserved in Lean. -/
structure DmaChannel where
  src : Nat
  dst : Nat
  count : Nat
  dst_ctl : Nat
  src_ctl : Nat
  rep : Bool
  ty : Nat
  gamepak_drq : Bool
  timing : Nat
  irq_end : Bool
  enable : Bool
deriving Repr, DecidableEq

/-- Transfer width in bytes: the control word's `type` bit selects 32-bit
(4-byte) or 16-bit (2-byte) units. -/
def dma_width (ch : DmaChannel) : Nat :=
  if ch.ty = 1 then 4 else 2

/-- Modelled from the spec: the per-unit address adjustment of a DMA
latch.  Address-control 0 increments by the transfer width, 1 decrements
(32-bit wrap-around), 2 keeps the address fixed, and 3 — the destination
"reload" mode — behaves like increment during the transfer. -/
def dma_adjust (ctl a w : Nat) : Nat :=
  match ctl with
  | 0 => (a + w) % 2 ^ 32
  | 1 => (a + (2 ^ 32 - w)) % 2 ^ 32
  | 2 => a
  | _ => (a + w) % 2 ^ 32

/-- Modelled from the spec: the DMA unit loop.  For each of `n` units one
value of width `w` is read from the source address and written to the
destination address, after which both addresses are adjusted according to
their address-control fields.  Returns the list of performed destination
writes (address, width in bytes) together with the final source and
destination latches. -/
def dma_run (sctl dctl w : Nat) : Nat → Nat → Nat → List (Nat × Nat) × Nat × Nat
  | 0, src, dst => ([], src, dst)
  | n + 1, src, dst =>
    let r := dma_run sctl dctl w n (dma_adjust sctl src w) (dma_adjust dctl dst w)
    ((dst, w) :: r.1, r.2)

/-- The `n`-fold application of the per-unit address adjustment, used to
describe the latch trajectory of the unit loop. -/
def dma_iter (ctl w : Nat) : Nat → Nat → Nat
  | 0, a => a
  | n + 1, a => dma_iter ctl w n (dma_adjust ctl a w)

/-- Modelled from the spec: `mem_dma_transfer` (the body in `memory/dma.c`
is not part of the analysed sources; only its declaration is).  One
complete burst of a triggered channel: perform `count` unit transfers,
restore the destination latch to its latched value in reload mode, and
clear the enable bit unless the channel repeats on a non-immediate
trigger.  Returns the destination writes and the updated channel. -/
def mem_dma_transfer (ch : DmaChannel) : List (Nat × Nat) × DmaChannel :=
  let w := dma_width ch
  let r := dma_run ch.src_ctl ch.dst_ctl w ch.count ch.src ch.dst
  let newDst := if ch.dst_ctl = 3 then ch.dst else r.2.2
  (r.1, { ch with src := r.2.1, dst := newDst,
                  enable := ch.rep && decide (ch.timing ≠ 0) })

/-- A CPSR with every field cleared (`cpsr.raw = 0`). -/
def zeroCpsr : Cpsr :=
  { mode := 0, thumb := false, negative := false, zero := false,
    carry := false, overflow := false }

/-- A concrete core used to instantiate the theorems: all registers and
flags cleared, an all-zero bus. -/
def testCore : Core :=
  { registers := fun _ => 0
    cpsr := zeroCpsr
    prefetch := 0
    bigEndian := false
    busRead32 := fun _ => 0
    busRead16 := fun _ => 0 }

/-- A core about to execute the word `0xE129F000`, i.e. `MSR CPSR, r0`
with condition AL. -/
def msrCore : Core :=
  { testCore with prefetch := 0xE129F000 }

/-- A core whose r1 holds 32, for exercising a register-specified shift
amount of 32. -/
def shiftCore : Core :=
  { testCore with registers := Function.update testCore.registers 1 32 }

/-- A core in Thumb state (CPSR.T set). -/
def thumbCore : Core :=
  { testCore with cpsr := { zeroCpsr with thumb := true } }

/-- A concrete immediate DMA channel: 16 units of 32 bits from
`0x02000000` to `0x02001000`, both addresses incrementing. -/
def dmaTestChannel : DmaChannel :=
  { src := 0x02000000, dst := 0x02001000, count := 16, dst_ctl := 0,
    src_ctl := 0, rep := false, ty := 1, gamepak_drq := false, timing := 0,
    irq_end := false, enable := true }

/-- The top bit of a 32-bit value, via shifting. -/
theorem shiftRight31_eq (value : Nat) (hv : value < 2 ^ 32) :
    value >>> 31 = if 2 ^ 31 ≤ value then 1 else 0 := by
  have e31 : (2 : Nat) ^ 31 = 2147483648 := by norm_num
  have e32 : (2 : Nat) ^ 32 = 4294967296 := by norm_num
  rw [Nat.shiftRight_eq_div_pow, e31]
  rw [e31, e32] at *
  by_cases h : 2147483648 ≤ value
  · rw [if_pos (by omega)]
    omega
  · rw [if_neg (by omega)]
    omega

/-- Evaluation of the shift switch: LSR with an amount of 0 (encoding
LSR#32) yields 0 with carry-out bit 31 of the value. -/
theorem core_shift_calc_lsr0 (core : Core) (value : Nat) (hv : value < 2 ^ 32) :
    core_shift_calc core 1 0 value = (0, decide (2 ^ 31 ≤ value)) := by
  simp only [core_shift_calc, if_true]
  rw [show (32 : Nat) - 1 = 31 from rfl, shiftRight31_eq value hv]
  split_ifs with h <;> simp [h] <;> omega

/-- Evaluation of the shift switch: ASR with an amount of 0 (encoding
ASR#32) yields the sign-fill of the value with carry-out bit 31. -/
theorem core_shift_calc_asr0 (core : Core) (value : Nat) (hv : value < 2 ^ 32) :
    core_shift_calc core 2 0 value =
      ((if 2 ^ 31 ≤ value then 2 ^ 32 - 1 else 0), decide (2 ^ 31 ≤ value)) := by
  simp only [core_shift_calc, if_true]
  rw [show (32 : Nat) - 1 = 31 from rfl]
  by_cases h : 2 ^ 31 ≤ value
  · have h1 : asr32 value 31 = 2 ^ 32 - 1 := by
      simp only [asr32]
      rw [if_neg (by omega), shiftRight31_eq value hv, if_pos h]
      norm_num
    have h2 : asr32 (2 ^ 32 - 1) 1 = 2 ^ 32 - 1 := by decide
    rw [h1, h2, if_pos h]
    simp [h]
    omega
  · have h1 : asr32 value 31 = 0 := by
      simp only [asr32]
      rw [if_pos (by omega), shiftRight31_eq value hv, if_neg h]
    have h2 : asr32 0 1 = 0 := by decide
    rw [h1, h2, if_neg h]
    simp [h]
    omega

/-- C1: for every 32-bit value, the barrel shifter on an immediate-encoded
shift amount of 0 matches the ARM7 corner cases — LSL#0 returns the value
unchanged with carry-out the current CPSR.C; LSR#0 (encoding LSR#32)
returns 0 with carry-out bit 31 of the value; ASR#0 (encoding ASR#32)
returns all-ones or all-zeros according to bit 31, with carry-out bit 31;
ROR#0 (encoding RRX) returns `(value >> 1) | (CPSR.C << 31)` with
carry-out bit 0 of the value. -/
theorem core_compute_shift_imm_zero (core : Core) (enc value : Nat)
    (hv : value < 2 ^ 32) (himm : bitfield_get enc 0 = false)
    (hamt : (enc >>> 3) % 32 = 0) :
    ((enc >>> 1) % 4 = 0 →
      core_compute_shift core enc value true =
        Except.ok (value, core.setCarry core.cpsr.carry)) ∧
    ((enc >>> 1) % 4 = 1 →
      core_compute_shift core enc value true =
        Except.ok (0, core.setCarry (decide (2 ^ 31 ≤ value)))) ∧
    ((enc >>> 1) % 4 = 2 →
      core_compute_shift core enc value true =
        Except.ok ((if 2 ^ 31 ≤ value then 2 ^ 32 - 1 else 0),
                   core.setCarry (decide (2 ^ 31 ≤ value)))) ∧
    ((enc >>> 1) % 4 = 3 →
      core_compute_shift core enc value true =
        Except.ok ((value >>> 1) ||| ((if core.cpsr.carry then 1 else 0) <<< 31),
                   core.setCarry (decide (value % 2 = 1)))) := by
  refine ⟨fun ht => ?_, fun ht => ?_, fun ht => ?_, fun ht => ?_⟩
  · simp [core_compute_shift, himm, hamt, ht, core_shift_calc]
  · simp only [core_compute_shift, himm, Bool.false_eq_true, if_false, hamt, ht]
    rw [core_shift_calc_lsr0 core value hv]
    rfl
  · simp only [core_compute_shift, himm, Bool.false_eq_true, if_false, hamt, ht]
    rw [core_shift_calc_asr0 core value hv]
    rfl
  · simp [core_compute_shift, himm, hamt, ht, core_shift_calc]

/-- C1 witness: the four corner cases exercised at concrete inputs. -/
theorem core_compute_shift_imm_zero_witness :
    core_compute_shift testCore 0 5 true =
      Except.ok (5, testCore.setCarry testCore.cpsr.carry) ∧
    core_compute_shift testCore 2 0x80000000 true =
      Except.ok (0, testCore.setCarry (decide (2 ^ 31 ≤ (0x80000000 : Nat)))) ∧
    core_compute_shift testCore 4 0x80000000 true =
      Except.ok ((if 2 ^ 31 ≤ (0x80000000 : Nat) then 2 ^ 32 - 1 else 0),
                 testCore.setCarry (decide (2 ^ 31 ≤ (0x80000000 : Nat)))) ∧
    core_compute_shift testCore 6 5 true =
      Except.ok (((5 : Nat) >>> 1) ||| ((if testCore.cpsr.carry then 1 else 0) <<< 31),
                 testCore.setCarry (decide ((5 : Nat) % 2 = 1))) :=
  ⟨(core_compute_shift_imm_zero testCore 0 5 (by decide) (by decide) (by decide)).1
     (by decide),
   (core_compute_shift_imm_zero testCore 2 0x80000000 (by decide) (by decide)
     (by decide)).2.1 (by decide),
   (core_compute_shift_imm_zero testCore 4 0x80000000 (by decide) (by decide)
     (by decide)).2.2.1 (by decide),
   (core_compute_shift_imm_zero testCore 6 5 (by decide) (by decide) (by decide)).2.2.2
     (by decide)⟩

/-- C2 (decoding bug): the guards of the MSR and MSRF branches test the
result of `bitfield_get_range` over the empty bit range — the C argument
`25 == 0b10` evaluates to 0 — which is always 0, so both branches are dead
for every instruction word; the MSR word `0xE129F000` (`MSR CPSR, r0`,
condition AL) is dispatched to the data-processing executor instead of the
PSR-transfer executor. -/
theorem core_step_arm_msr_misdecoded :
    core_step_arm msrCore =
      StepResult.exec ArmClass.data_processing 0xE129F000 (core_fetch_advance msrCore) ∧
    ∀ op : Nat, core_decode_arm op ≠ Except.ok ArmClass.msr ∧
                core_decode_arm op ≠ Except.ok ArmClass.msrf := by
  constructor
  · rfl
  · intro op
    have hz : bitfield_get_range op 23 0 = 0 := Nat.mod_one (op >>> 23)
    constructor <;>
    · unfold core_decode_arm
      split <;> simp [hz] <;> split_ifs <;> simp

/-- C3 (code bug): a register-specified shift amount of 32 or more reaches
the emulator's `unimplemented` call instead of the ARM-defined semantics
(LSL/LSR ≥ 32 → 0, ASR ≥ 32 → sign-fill, ROR → amount mod 32); shown for
`LSL r?, r1` with r1 = 32.  A register-specified amount of 0 does leave
the value and the carry flag untouched, as the claim states. -/
theorem core_compute_shift_reg_amounts :
    core_compute_shift shiftCore 0x11 5 true =
      Except.error "unsupported shifts of more than 32 bits" ∧
    core_compute_shift shiftCore 0x21 5 true = Except.ok (5, shiftCore) := by
  constructor <;> rfl

/-- C4: an ARM instruction whose condition code evaluates to false over
the flags is skipped — no executor runs; the state is unchanged except
that the prefetch latch is refilled with the word read at r15 and r15
advances by 4. -/
theorem core_step_arm_cond_false_skips (core : Core)
    (h : condEval core.cpsr (core.prefetch >>> 28) = some false) :
    core_step_arm core = StepResult.skipped
      { core with prefetch := core.busRead32 core.r15,
                  registers := Function.update core.registers 15
                    ((core.r15 + 4) % 2 ^ 32) } := by
  have h2 : condEval (core_fetch_advance core).cpsr (core.prefetch >>> 28)
      = some false := h
  simp only [core_step_arm]
  rw [h2]
  rfl

/-- C4 witness: a concrete core whose next word has condition EQ with the
zero flag clear is skipped. -/
theorem core_step_arm_cond_false_skips_witness :
    core_step_arm testCore = StepResult.skipped
      { testCore with prefetch := testCore.busRead32 testCore.r15,
                      registers := Function.update testCore.registers 15
                        ((testCore.r15 + 4) % 2 ^ 32) } :=
  core_step_arm_cond_false_skips testCore (by decide)

/-- C5 counterexample: after `core_reset` the PC is not `0x8000000` — the
pipeline reload at the end of the reset has already advanced it. -/
theorem core_reset_r15_ne : (core_reset testCore).r15 ≠ 0x8000000 := by decide

/-- C5 (amended): after `core_reset`, r0–r14 are zero, r15 holds
`0x8000004` (the cartridge entry point `0x8000000` advanced by one ARM
instruction width by the pipeline reload), the CPSR is clear except for
the mode field which is System (so T = 0), and the prefetch latch holds
the word read from `0x8000000`. -/
theorem core_reset_spec (core : Core) :
    (∀ i : Fin 16, (core_reset core).registers i = if i = 15 then 0x8000004 else 0) ∧
    (core_reset core).cpsr =
      { mode := MODE_SYSTEM, thumb := false, negative := false,
        zero := false, carry := false, overflow := false } ∧
    (core_reset core).prefetch = core.busRead32 0x8000000 ∧
    (core_reset core).bigEndian = false := by
  have hm : (0x8000000 + 4) % 2 ^ 32 = 0x8000004 := by decide
  refine ⟨fun i => ?_, ?_, ?_, ?_⟩ <;>
    simp [core_reset, core_reload_pipeline, Core.setR15, Core.r15, hm,
          Function.update_idem, Function.update_apply]

/-- C6: `core_reload_pipeline` — the reload performed after every
control-flow redirect — refills the prefetch latch from the address in the
new PC and advances the PC by exactly one instruction width: 4 bytes in
ARM state (CPSR.T clear), 2 bytes in Thumb state (CPSR.T set); no other
part of the state changes. -/
theorem core_reload_pipeline_spec (core : Core) :
    (core_reload_pipeline core).prefetch =
      (if core.cpsr.thumb then core.busRead16 core.r15 else core.busRead32 core.r15) ∧
    (core_reload_pipeline core).r15 =
      (core.r15 + (if core.cpsr.thumb then 2 else 4)) % 2 ^ 32 ∧
    (∀ i : Fin 16, (core_reload_pipeline core).registers i =
      (if i = 15 then (core.r15 + (if core.cpsr.thumb then 2 else 4)) % 2 ^ 32
       else core.registers i)) ∧
    (core_reload_pipeline core).cpsr = core.cpsr ∧
    (core_reload_pipeline core).bigEndian = core.bigEndian := by
  by_cases h : core.cpsr.thumb <;>
    refine ⟨?_, ?_, fun i => ?_, ?_, ?_⟩ <;>
      simp [core_reload_pipeline, Core.setR15, Core.r15, h, Function.update_apply]

/-- C7: in ARM state an execution step takes the executed word from the
prefetch latch, refills the latch with the word read at r15 and advances
r15 by 4, and only then tests the condition (over the CPSR, which the
fetch left unchanged) and decodes and dispatches the old word. -/
theorem core_step_arm_order (core : Core) (h : core.cpsr.thumb = false) :
    core_step core = core_step_arm core ∧
    core_step_arm core =
      (match condEval core.cpsr (core.prefetch >>> 28) with
       | none => StepResult.panic "Unknown cond"
       | some false => StepResult.skipped (core_fetch_advance core)
       | some true =>
         match core_decode_arm core.prefetch with
         | Except.error msg => StepResult.panic msg
         | Except.ok cls => StepResult.exec cls core.prefetch (core_fetch_advance core)) ∧
    (core_fetch_advance core).prefetch = core.busRead32 core.r15 ∧
    (core_fetch_advance core).r15 = (core.r15 + 4) % 2 ^ 32 ∧
    (core_fetch_advance core).cpsr = core.cpsr := by
  refine ⟨by simp [core_step, h], rfl, rfl, ?_, rfl⟩
  simp [core_fetch_advance, Core.setR15, Core.r15]

/-- C7 witness: the step structure instantiated at a concrete ARM-state
core. -/
theorem core_step_arm_order_witness :
    core_step testCore = core_step_arm testCore ∧
    core_step_arm testCore =
      (match condEval testCore.cpsr (testCore.prefetch >>> 28) with
       | none => StepResult.panic "Unknown cond"
       | some false => StepResult.skipped (core_fetch_advance testCore)
       | some true =>
         match core_decode_arm testCore.prefetch with
         | Except.error msg => StepResult.panic msg
         | Except.ok cls =>
           StepResult.exec cls testCore.prefetch (core_fetch_advance testCore)) ∧
    (core_fetch_advance testCore).prefetch = testCore.busRead32 testCore.r15 ∧
    (core_fetch_advance testCore).r15 = (testCore.r15 + 4) % 2 ^ 32 ∧
    (core_fetch_advance testCore).cpsr = testCore.cpsr :=
  core_step_arm_order testCore rfl

/-- C8 (code bug): with CPSR.T set, an execution step does not decode a
Thumb instruction — it reaches the `unimplemented` handler of
`core_step_thumb`. -/
theorem core_step_thumb_unimplemented :
    core_step thumbCore = StepResult.panic "Thumb mode isn't implemented (yet)." := rfl

/-- C10: the condition switch of `core_step_arm` covers only the 15
condition values 0 through 14; a word whose top 4 bits are 0b1111 reaches
the panic branch instead of being skipped or executed. -/
theorem core_step_arm_cond15_panics (core : Core)
    (h : core.prefetch >>> 28 = 15) :
    core_step_arm core = StepResult.panic "Unknown cond" := by
  simp only [core_step_arm, h]
  rfl

/-- C10 witness: a concrete word with condition 0b1111 panics. -/
theorem core_step_arm_cond15_panics_witness :
    core_step_arm { testCore with prefetch := 0xF0000000 } =
      StepResult.panic "Unknown cond" :=
  core_step_arm_cond15_panics { testCore with prefetch := 0xF0000000 } (by decide)

/-- The destination writes performed by the DMA unit loop total exactly
`n` times the transfer width in bytes. -/
theorem dma_run_writes_sum (sctl dctl w : Nat) :
    ∀ n src dst, ((dma_run sctl dctl w n src dst).1.map Prod.snd).sum = n * w := by
  intro n
  induction n with
  | zero => intro src dst; simp [dma_run]
  | succ n ih =>
    intro src dst
    simp only [dma_run, List.map_cons, List.sum_cons, ih]
    rw [Nat.succ_mul]
    omega

/-- The final source latch of the unit loop is the iterated source
adjustment. -/
theorem dma_run_src_latch (sctl dctl w : Nat) :
    ∀ n src dst, (dma_run sctl dctl w n src dst).2.1 = dma_iter sctl w n src := by
  intro n
  induction n with
  | zero => intro src dst; rfl
  | succ n ih => intro src dst; simp only [dma_run, dma_iter, ih]

/-- The final destination latch of the unit loop is the iterated
destination adjustment. -/
theorem dma_run_dst_latch (sctl dctl w : Nat) :
    ∀ n src dst, (dma_run sctl dctl w n src dst).2.2 = dma_iter dctl w n dst := by
  intro n
  induction n with
  | zero => intro src dst; rfl
  | succ n ih => intro src dst; simp only [dma_run, dma_iter, ih]

/-- Iterated increment adjustment: the latch advances by `n` units. -/
theorem dma_iter_inc (w : Nat) :
    ∀ n a, a < 2 ^ 32 → dma_iter 0 w n a = (a + n * w) % 2 ^ 32 := by
  intro n
  induction n with
  | zero => intro a ha; simp [dma_iter]; omega
  | succ n ih =>
    intro a ha
    simp only [dma_iter, dma_adjust]
    rw [ih _ (Nat.mod_lt _ (by norm_num)), Nat.mod_add_mod]
    congr 1
    ring

/-- Iterated decrement adjustment: the latch retreats by `n` units,
modulo 2^32. -/
theorem dma_iter_dec (w : Nat) :
    ∀ n a, a < 2 ^ 32 → dma_iter 1 w n a = (a + n * (2 ^ 32 - w)) % 2 ^ 32 := by
  intro n
  induction n with
  | zero => intro a ha; simp [dma_iter]; omega
  | succ n ih =>
    intro a ha
    simp only [dma_iter, dma_adjust]
    rw [ih _ (Nat.mod_lt _ (by norm_num)), Nat.mod_add_mod]
    congr 1
    ring

/-- Iterated fixed adjustment: the latch does not move. -/
theorem dma_iter_fixed (w : Nat) : ∀ n a, dma_iter 2 w n a = a := by
  intro n
  induction n with
  | zero => intro a; rfl
  | succ n ih => intro a; simp only [dma_iter, dma_adjust, ih]

/-- C9: a completed DMA transfer writes exactly `count × width` bytes to
the destination, and the final source/destination latches equal the
initial ones plus `count × width` (increment), minus `count × width`
modulo 2^32 (decrement), or the original latched value (fixed source or
destination, and reload destination). -/
theorem mem_dma_transfer_spec (ch : DmaChannel)
    (hs : ch.src < 2 ^ 32) (hd : ch.dst < 2 ^ 32) :
    ((mem_dma_transfer ch).1.map Prod.snd).sum = ch.count * dma_width ch ∧
    (ch.src_ctl = 0 → (mem_dma_transfer ch).2.src =
      (ch.src + ch.count * dma_width ch) % 2 ^ 32) ∧
    (ch.src_ctl = 1 →
      ((mem_dma_transfer ch).2.src + ch.count * dma_width ch) % 2 ^ 32 = ch.src) ∧
    (ch.src_ctl = 2 → (mem_dma_transfer ch).2.src = ch.src) ∧
    (ch.dst_ctl = 0 → (mem_dma_transfer ch).2.dst =
      (ch.dst + ch.count * dma_width ch) % 2 ^ 32) ∧
    (ch.dst_ctl = 1 →
      ((mem_dma_transfer ch).2.dst + ch.count * dma_width ch) % 2 ^ 32 = ch.dst) ∧
    (ch.dst_ctl = 2 → (mem_dma_transfer ch).2.dst = ch.dst) ∧
    (ch.dst_ctl = 3 → (mem_dma_transfer ch).2.dst = ch.dst) := by
  have hw : dma_width ch ≤ 2 ^ 32 := by
    unfold dma_width; split <;> norm_num
  refine ⟨?_, fun h => ?_, fun h => ?_, fun h => ?_, fun h => ?_, fun h => ?_,
          fun h => ?_, fun h => ?_⟩
  · simp only [mem_dma_transfer]
    exact dma_run_writes_sum ch.src_ctl ch.dst_ctl (dma_width ch) ch.count ch.src ch.dst
  · simp only [mem_dma_transfer, h]
    rw [dma_run_src_latch, dma_iter_inc (dma_width ch) ch.count ch.src hs]
  · simp only [mem_dma_transfer, h]
    rw [dma_run_src_latch, dma_iter_dec (dma_width ch) ch.count ch.src hs,
        Nat.mod_add_mod, Nat.add_assoc, ← Nat.mul_add,
        Nat.sub_add_cancel hw, Nat.mul_comm, Nat.add_mul_mod_self_left,
        Nat.mod_eq_of_lt hs]
  · simp only [mem_dma_transfer, h]
    rw [dma_run_src_latch, dma_iter_fixed]
  · simp only [mem_dma_transfer, h]
    rw [if_neg (by omega), dma_run_dst_latch,
        dma_iter_inc (dma_width ch) ch.count ch.dst hd]
  · simp only [mem_dma_transfer, h]
    rw [if_neg (by omega), dma_run_dst_latch,
        dma_iter_dec (dma_width ch) ch.count ch.dst hd,
        Nat.mod_add_mod, Nat.add_assoc, ← Nat.mul_add,
        Nat.sub_add_cancel hw, Nat.mul_comm, Nat.add_mul_mod_self_left,
        Nat.mod_eq_of_lt hd]
  · simp only [mem_dma_transfer, h]
    rw [if_neg (by omega), dma_run_dst_latch, dma_iter_fixed]
  · simp only [mem_dma_transfer, h, if_true]

/-- C9 witness: the immediate 16-unit 32-bit transfer of the concrete
channel, with incrementing source and destination. -/
theorem mem_dma_transfer_spec_witness :
    ((mem_dma_transfer dmaTestChannel).1.map Prod.snd).sum =
      dmaTestChannel.count * dma_width dmaTestChannel ∧
    (dmaTestChannel.src_ctl = 0 → (mem_dma_transfer dmaTestChannel).2.src =
      (dmaTestChannel.src + dmaTestChannel.count * dma_width dmaTestChannel) % 2 ^ 32) ∧
    (dmaTestChannel.src_ctl = 1 →
      ((mem_dma_transfer dmaTestChannel).2.src +
        dmaTestChannel.count * dma_width dmaTestChannel) % 2 ^ 32 = dmaTestChannel.src) ∧
    (dmaTestChannel.src_ctl = 2 →
      (mem_dma_transfer dmaTestChannel).2.src = dmaTestChannel.src) ∧
    (dmaTestChannel.dst_ctl = 0 → (mem_dma_transfer dmaTestChannel).2.dst =
      (dmaTestChannel.dst + dmaTestChannel.count * dma_width dmaTestChannel) % 2 ^ 32) ∧
    (dmaTestChannel.dst_ctl = 1 →
      ((mem_dma_transfer dmaTestChannel).2.dst +
        dmaTestChannel.count * dma_width dmaTestChannel) % 2 ^ 32 = dmaTestChannel.dst) ∧
    (dmaTestChannel.dst_ctl = 2 →
      (mem_dma_transfer dmaTestChannel).2.dst = dmaTestChannel.dst) ∧
    (dmaTestChannel.dst_ctl = 3 →
      (mem_dma_transfer dmaTestChannel).2.dst = dmaTestChannel.dst) :=
  mem_dma_transfer_spec dmaTestChannel (by decide) (by decide)
